import Mathlib

/-!
# Verification of the Briefly session / summary-collection controller

Shallow embedding of the React frontend core of the Briefly application:
the `SummariesList` component (dual-view listing, search/category
filtering, delete and share flows), the `AuthProvider` session logic
(`verifyToken`, `logout`) and the `RequestService` gateway error mapping.

JavaScript strings become `String`, JavaScript numbers used as integer
timestamps become `Nat`, fallible field accesses and thrown exceptions
become `Option`, and each asynchronous handler becomes an explicit
state-transition function taking the network outcome as an argument
(issue phase and completion phase are separate functions where the claim
is about the in-flight window).
-/

namespace Briefly

/-- JavaScript's `hay.includes(pat)` on the character-list level:
`pat` occurs as a contiguous substring of `hay`. -/
def hasSub (pat : List Char) : List Char → Bool
  | [] => pat.isEmpty
  | c :: cs => pat.isPrefixOf (c :: cs) || hasSub pat cs

/-- JavaScript's `String.prototype.includes`. -/
def jsIncludes (hay pat : String) : Bool :=
  hasSub pat.data hay.data

/-- JavaScript's `String.prototype.toLowerCase`, character by character
(ASCII range, matching `Char.toLower`). -/
def jsToLower (s : String) : String :=
  ⟨s.data.map Char.toLower⟩

/-- A summary record as consumed by the filter and the delete flow
(`id`, `title`, `type`, `outputData` are the fields the embedded code
reads). -/
structure Summary where
  id : Nat
  title : String
  type : String
  outputData : String
deriving DecidableEq, Repr

/-- The filter predicate of `filteredSummaries` in `SummariesList`:
`matchesTab && matchesSearch`, where
`matchesTab = activeTab === 'all' || summary.type.toLowerCase() === activeTab`
and `matchesSearch` is a case-insensitive substring test of the query
against `title` or `outputData`. -/
def summaryMatches (activeTab searchQuery : String) (s : Summary) : Bool :=
  (activeTab == "all" || jsToLower s.type == activeTab) &&
    (jsIncludes (jsToLower s.title) (jsToLower searchQuery) ||
      jsIncludes (jsToLower s.outputData) (jsToLower searchQuery))

/-- `filteredSummaries` from `SummariesList`: the visible list for the
owned view. -/
def filteredSummaries (activeTab searchQuery : String)
    (summaries : List Summary) : List Summary :=
  summaries.filter (summaryMatches activeTab searchQuery)

/-- The filter predicate exactly as the specification words it: the
item's `type` equals the category (no lowercasing) unless the category
is `all`, and the lowercased query is a substring of the lowercased
`title` or of the lowercased `outputData`. -/
def specMatches (category searchQuery : String) (s : Summary) : Bool :=
  (category == "all" || s.type == category) &&
    (jsIncludes (jsToLower s.title) (jsToLower searchQuery) ||
      jsIncludes (jsToLower s.outputData) (jsToLower searchQuery))

/-- The visible list as the specification words it. -/
def specVisible (category searchQuery : String)
    (summaries : List Summary) : List Summary :=
  summaries.filter (specMatches category searchQuery)

/-! ## State of the `SummariesList` component

One field per `useState` hook that the embedded handlers read or write,
plus `loggedOut` (the observable effect of the session controller's
`logout`, which none of these handlers invokes) and `alerts` (the
sequence of `alert(...)` messages shown, newest last). -/

structure ListState where
  summaries : List Summary
  sharedSummaries : List Summary
  searchQuery : String
  loading : Bool
  error : Option String
  deleting : Bool
  currentView : String
  sharingSummary : Option Summary
  recipient : String
  sharing : Bool
  errorMessage : Option String
  activeTab : String
  selectedSummary : Option Summary
  loggedOut : Bool
  alerts : List String
deriving DecidableEq, Repr

/-- An axios error as observed in a `catch` block: the optional HTTP
status and the optional response body (`error.response?.status`,
`error.response?.data`). -/
structure AxiosError where
  status : Option Nat
  data : Option String
deriving DecidableEq, Repr

/-- The value `getUserSummaries` (and the other gateway methods) throws
on failure: `error.response?.data || '<generic message>'` — the response
body when it is truthy, otherwise the generic string; the HTTP status is
discarded. -/
def thrownOfFetchError (generic : String) (e : AxiosError) : String :=
  match e.data with
  | some d => if d = "" then generic else d
  | none => generic

/-- A parsed list-endpoint response body: `status` flag and `result`,
which is `some` payload when `Array.isArray(result)` holds and `none`
otherwise. -/
structure FetchResponse where
  status : String
  result : Option (List Summary)
deriving DecidableEq, Repr

/-- Outcome of one `getUserSummaries` / `getUserSharedSummaries` round
trip as seen by the caller: a parsed response, or a thrown error. -/
inductive FetchOutcome where
  | ok (r : FetchResponse)
  | netErr (e : AxiosError)
deriving DecidableEq, Repr

/-- The payload of a well-formed success response (`status === 'OK'` and
`Array.isArray(result)`), `none` for every malformed or failed
outcome. -/
def FetchOutcome.payload : FetchOutcome → Option (List Summary)
  | .ok r => if r.status = "OK" then r.result else none
  | .netErr _ => none

/-- `fetchSummaries`, issue phase: `setLoading(true)` before the network
call; nothing else changes. -/
def issueFetch (s : ListState) : ListState :=
  { s with loading := true }

/-- `fetchSummaries`, completion phase: on `status !== 'OK'`, non-array
`result`, or a thrown error, set the generic error message and leave
`summaries` alone; on a well-formed response replace `summaries` with
the payload; `finally` clears `loading`. -/
def fetchOwnedComplete (s : ListState) (o : FetchOutcome) : ListState :=
  match o.payload with
  | some data => { s with summaries := data, loading := false }
  | none =>
      { s with error := some "Failed to load summaries. Please try again later.",
               loading := false }

/-- `fetchSharedSummaries`, completion phase: same shape as
`fetchOwnedComplete` but targeting `sharedSummaries` and its own error
text. -/
def fetchSharedComplete (s : ListState) (o : FetchOutcome) : ListState :=
  match o.payload with
  | some data => { s with sharedSummaries := data, loading := false }
  | none =>
      { s with error := some "Failed to load shared summaries. Please try again later.",
               loading := false }

/-- Two overlapping `fetchSummaries` calls on the owned list: both are
issued, then the response of the second-issued call arrives, then the
response of the first-issued call arrives. The component applies each
response as it arrives; it keeps no request token. -/
def overlappingFetchOwned (s : ListState) (first second : FetchOutcome) :
    ListState :=
  fetchOwnedComplete (fetchOwnedComplete (issueFetch (issueFetch s)) second) first

/-! ## Delete flow -/

/-- `handleDeleteSummary`, issue phase: `setDeleting(true)` before the
gateway delete call. -/
def deleteIssue (s : ListState) : ListState :=
  { s with deleting := true }

/-- `handleDeleteSummary`, completion phase: when the gateway delete
resolved, `setSummaries(prev.filter(summary => summary.id !== summaryId))`;
when it threw, set the delete error message; `finally` clears
`deleting`. -/
def deleteComplete (s : ListState) (summaryId : Nat) (ok : Bool) : ListState :=
  if ok then
    { s with summaries := s.summaries.filter (fun x => x.id ≠ summaryId),
             deleting := false }
  else
    { s with error := some "Failed to delete summary. Please try again later.",
             deleting := false }

/-- The whole `handleDeleteSummary(summaryId)` run, with `ok` recording
whether the gateway delete call succeeded. -/
def handleDeleteSummary (s : ListState) (summaryId : Nat) (ok : Bool) : ListState :=
  deleteComplete (deleteIssue s) summaryId ok

/-! ## Share flow -/

/-- `handleShareSummary(summary)`: opens the share dialog by setting
`sharingSummary`. -/
def handleShareSummary (s : ListState) (summary : Summary) : ListState :=
  { s with sharingSummary := some summary }

/-- Outcome of one `shareSummary` gateway round trip: success, or a
thrown error whose `detail` field (`err.detail`) may be absent. -/
inductive ShareOutcome where
  | ok
  | err (detail : Option String)
deriving DecidableEq, Repr

/-- `handleSendShare`: with an empty `recipient` it alerts a validation
message and returns before any gateway call; otherwise it calls the
gateway and, on success, alerts, clears `sharingSummary` and
`recipient`; on failure it stores `err.detail` in `errorMessage` and
leaves `sharingSummary` in place. The second component records whether
the gateway share call was made. -/
def handleSendShare (s : ListState) (o : ShareOutcome) : ListState × Bool :=
  if s.recipient = "" then
    ({ s with alerts := s.alerts ++ ["Please enter a recipient email or username."] },
     false)
  else
    match o with
    | .ok =>
        ({ s with alerts := s.alerts ++
                    ["Summary shared successfully with " ++ s.recipient],
                  sharingSummary := none, recipient := "", sharing := false },
         true)
    | .err d =>
        ({ s with errorMessage := d, sharing := false }, true)

/-! ## Session controller (`AuthProvider` in App.js) -/

/-- The cached user profile; opaque to this core beyond `id`. -/
structure UserProfile where
  id : Nat
deriving DecidableEq, Repr

/-- A stored bearer token as `jwtDecode` sees it: `some exp` (the expiry
claim, in seconds) when the token decodes, `none` when `jwtDecode`
throws. -/
structure StoredToken where
  decodedExp : Option Nat
deriving DecidableEq, Repr

/-- Session state of `AuthProvider`: the two persisted localStorage
entries (`auth_token`, `user_data`) and the React state hooks. -/
structure SessionState where
  storedToken : Option StoredToken
  storedUser : Option UserProfile
  isAuthenticated : Bool
  userData : Option UserProfile
  summaries : List Summary
  loading : Bool
  error : Option String
deriving DecidableEq, Repr

/-- `logout()`: removes both localStorage entries and resets
`isAuthenticated`, `userData`, `summaries`, `error`. -/
def logout (s : SessionState) : SessionState :=
  { s with storedToken := none, storedUser := none, isAuthenticated := false,
           userData := none, summaries := [], error := none }

/-- The prefetch step inside `verifyToken`: `getUserSummaries` outcome
(`none` models a thrown error, handled by the inner `catch` which clears
`summaries`); a response is stored only when `status === 'OK'`, with
`result || []`. -/
def applyPrefetch (s : SessionState) (resp : Option FetchResponse) : SessionState :=
  match resp with
  | some r =>
      if r.status = "OK" then { s with summaries := r.result.getD [] } else s
  | none => { s with summaries := [] }

/-- `verifyToken()` of `AuthProvider`, run at a moment where `Date.now()`
is `now` (milliseconds) and the summaries prefetch would produce `resp`:
missing token or profile, an undecodable token, or
`decodedToken.exp * 1000 < Date.now()` each throw into the `catch`,
which calls `logout()`; otherwise the cached profile is restored, the
user is marked authenticated, and the owned summaries are prefetched;
`finally` clears `loading`. -/
def verifyToken (s : SessionState) (now : Nat) (resp : Option FetchResponse) :
    SessionState :=
  match s.storedToken, s.storedUser with
  | some tok, some u =>
      match tok.decodedExp with
      | some exp =>
          if exp * 1000 < now then { logout s with loading := false }
          else
            { applyPrefetch { s with userData := some u, isAuthenticated := true } resp
                with loading := false }
      | none => { logout s with loading := false }
  | _, _ => { logout s with loading := false }

/-- The failure condition the code actually tests: no token, no cached
profile, undecodable token, or expiry strictly before `now`. -/
def verifyFailCond (s : SessionState) (now : Nat) : Prop :=
  s.storedToken = none ∨ s.storedUser = none ∨
    (∃ tok, s.storedToken = some tok ∧
      (tok.decodedExp = none ∨ ∃ exp, tok.decodedExp = some exp ∧ exp * 1000 < now))

/-! ## Raw (untyped) summaries, for the totality analysis of the filter

JavaScript objects may lack any of the fields the filter reads; a
missing field access yields `undefined`, and `.toLowerCase()` on
`undefined` throws. `Option` models the throw, and the evaluation order
and short-circuiting of the source are kept:
`matchesTab` is computed first (`activeTab === 'all'` short-circuits the
`type` access), then `matchesSearch` (`title` is always read; the
`outputData` arm is only reached when the title arm is false). -/

structure RawSummary where
  title : Option String
  type : Option String
  outputData : Option String
deriving DecidableEq, Repr

/-- One evaluation of the filter callback on a raw summary: `some b`
when it returns `b`, `none` when a field access throws. -/
def rawMatches (activeTab searchQuery : String) (s : RawSummary) : Option Bool := do
  let matchesTab ←
    if activeTab = "all" then some true
    else do
      let t ← s.type
      some (jsToLower t == activeTab)
  let title ← s.title
  let matchesSearch ←
    if jsIncludes (jsToLower title) (jsToLower searchQuery) then some true
    else do
      let od ← s.outputData
      some (jsIncludes (jsToLower od) (jsToLower searchQuery))
  some (matchesTab && matchesSearch)

/-- `summaries.filter(...)` over raw summaries: `none` as soon as one
callback evaluation throws, otherwise the kept items. -/
def filteredRaw (activeTab searchQuery : String) :
    List RawSummary → Option (List RawSummary)
  | [] => some []
  | s :: rest => do
      let b ← rawMatches activeTab searchQuery s
      let tail ← filteredRaw activeTab searchQuery rest
      some (if b then s :: tail else tail)

/-! ## Concrete states and decomposed spec predicates used in the
theorems below -/

/-- The component state right after mount: the `useState` initial
values of `SummariesList`. -/
def initialListState : ListState :=
  { summaries := [], sharedSummaries := [], searchQuery := "", loading := true,
    error := none, deleting := false, currentView := "my-summaries",
    sharingSummary := none, recipient := "", sharing := false, errorMessage := none,
    activeTab := "all", selectedSummary := none, loggedOut := false, alerts := [] }

/-- Stage (1) of the visible-list pipeline as the specification words
it, up to the lowercasing the code applies to `type`: category check,
passing everything when the category is `all`. -/
def specCategoryPass (category : String) (s : Summary) : Bool :=
  category == "all" || jsToLower s.type == category

/-- Stage (2) of the visible-list pipeline as the specification words
it: case-insensitive substring match of the query against `title` or
`outputData`. -/
def specSearchPass (searchQuery : String) (s : Summary) : Bool :=
  jsIncludes (jsToLower s.title) (jsToLower searchQuery) ||
    jsIncludes (jsToLower s.outputData) (jsToLower searchQuery)

/-- A session whose token expiry, in milliseconds, is exactly the
current instant used in the boundary counterexample (`exp = 1` second,
`now = 1000` ms). -/
def boundarySession : SessionState :=
  { storedToken := some ⟨some 1⟩, storedUser := some ⟨7⟩, isAuthenticated := false,
    userData := none, summaries := [], loading := true, error := none }

/-- A session whose token expiry (`exp = 2` seconds) lies strictly
before the instant `now = 2001` ms used in the expiry witness. -/
def expiredSession : SessionState :=
  { storedToken := some ⟨some 2⟩, storedUser := some ⟨7⟩, isAuthenticated := true,
    userData := some ⟨7⟩, summaries := [⟨1, "A", "code", ""⟩], loading := true,
    error := none }

/-- Auxiliary: the filter callback never throws on a raw summary whose
three read fields are all present as strings. -/
theorem rawMatches_total (activeTab searchQuery : String) (s : RawSummary)
    (h1 : s.title.isSome) (h2 : s.type.isSome) (h3 : s.outputData.isSome) :
    (rawMatches activeTab searchQuery s).isSome := by
  obtain ⟨t, ht⟩ := Option.isSome_iff_exists.mp h1
  obtain ⟨ty, hty⟩ := Option.isSome_iff_exists.mp h2
  obtain ⟨od, hod⟩ := Option.isSome_iff_exists.mp h3
  by_cases hall : activeTab = "all" <;>
    by_cases hq : jsIncludes (jsToLower t) (jsToLower searchQuery) <;>
      simp [rawMatches, ht, hty, hod, hall, hq]

/-! ## Claim theorems -/

/-- Claim C1, counterexample: with two overlapping `loadActiveList()`
calls whose first-issued response resolves after the second-issued one,
`items` ends as the FIRST response's payload, not the second's — the
component has no request token and simply applies responses in arrival
order, so the claim as stated is false. -/
theorem overlappingFetch_staleWins :
    (overlappingFetchOwned initialListState
        (.ok ⟨"OK", some [⟨1, "A", "code", "x"⟩]⟩)
        (.ok ⟨"OK", some [⟨2, "B", "research", "y"⟩]⟩)).summaries
      = [⟨1, "A", "code", "x"⟩]
    ∧ ([⟨1, "A", "code", "x"⟩] : List Summary) ≠ [⟨2, "B", "research", "y"⟩] := by
  decide

/-- Claim C1, amended: for overlapping `loadActiveList()` calls the
response that RESOLVES last writes `items` — whenever the first-issued
call's response is well-formed and arrives after the second's, `items`
ends as the first call's payload, whatever the second call returned. -/
theorem overlappingFetch_lastArrivalWins (s : ListState) (first second : FetchOutcome)
    (p : List Summary) (h : first.payload = some p) :
    (overlappingFetchOwned s first second).summaries = p := by
  unfold overlappingFetchOwned fetchOwnedComplete
  split <;> simp_all

/-- Claim C1, witness for the amended theorem at a concrete input. -/
theorem overlappingFetch_lastArrivalWins_witness :
    (overlappingFetchOwned initialListState (.ok ⟨"OK", some []⟩)
        (.netErr ⟨none, none⟩)).summaries = [] :=
  overlappingFetch_lastArrivalWins initialListState (.ok ⟨"OK", some []⟩)
    (.netErr ⟨none, none⟩) [] (by decide)

/-- Claim C2, counterexample: the code lowercases `type` before
comparing it with the category, so an item with `type = "Code"` is
visible under category `"code"` while the claim's predicate (plain
equality of `type` and category) excludes it. -/
theorem filteredSummaries_ne_spec :
    filteredSummaries "code" "" [⟨1, "A", "Code", ""⟩] ≠
      specVisible "code" "" [⟨1, "A", "Code", ""⟩] := by decide

/-- Claim C2, amended: the visible list is the items passing, in order,
(1) category equality against the LOWERCASED `type` unless the category
is `all`, and (2) the case-insensitive substring match of the query
against `title` or `outputData`; when every item's `type` is already
lowercase the claim holds as stated, and the concrete scenario behaves
as claimed (category `research` keeps exactly id 2, adding query `A`
empties the list). -/
theorem filteredSummaries_spec :
    (∀ (category searchQuery : String) (items : List Summary),
        filteredSummaries category searchQuery items =
          (items.filter (specCategoryPass category)).filter (specSearchPass searchQuery))
    ∧ (∀ (category searchQuery : String) (items : List Summary),
        (∀ s ∈ items, jsToLower s.type = s.type) →
        filteredSummaries category searchQuery items =
          specVisible category searchQuery items)
    ∧ filteredSummaries "research" "" [⟨1, "A", "code", ""⟩, ⟨2, "B", "research", ""⟩]
        = [⟨2, "B", "research", ""⟩]
    ∧ filteredSummaries "research" "A" [⟨1, "A", "code", ""⟩, ⟨2, "B", "research", ""⟩]
        = [] := by
  refine ⟨?_, ?_, by decide, by decide⟩
  · intro category searchQuery items
    unfold filteredSummaries
    rw [List.filter_filter]
    exact List.filter_congr fun a _ => by
      simp [summaryMatches, specCategoryPass, specSearchPass, Bool.and_comm]
  · intro category searchQuery items h
    unfold filteredSummaries specVisible
    exact List.filter_congr fun a ha => by
      simp [summaryMatches, specMatches, h a ha]

/-- Claim C2, witness for the amended theorem at a concrete input. -/
theorem filteredSummaries_spec_witness :
    filteredSummaries "all" "x" [⟨1, "A", "code", ""⟩] =
      specVisible "all" "x" [⟨1, "A", "code", ""⟩] :=
  filteredSummaries_spec.2.1 "all" "x" [⟨1, "A", "code", ""⟩] (by decide)

/-- Claim C3: deleting an id present in `items` leaves the list without
it while in-flight state is untouched — the issue phase changes no
summaries (removal only after the network call resolves); after a
successful completion an item remains exactly when it was there before
with a different id, order is preserved (sublist); after a failed
completion `lastError` is set and every item, the deleted one included,
stays in place. -/
theorem confirmDelete_invariant (s : ListState) (summaryId : Nat)
    (_hmem : summaryId ∈ s.summaries.map Summary.id) :
    ((deleteIssue s).summaries = s.summaries)
    ∧ (∀ x ∈ (handleDeleteSummary s summaryId true).summaries, x.id ≠ summaryId)
    ∧ (∀ x, x ∈ (handleDeleteSummary s summaryId true).summaries ↔
        x ∈ s.summaries ∧ x.id ≠ summaryId)
    ∧ (handleDeleteSummary s summaryId true).summaries.Sublist s.summaries
    ∧ (handleDeleteSummary s summaryId false).summaries = s.summaries
    ∧ (handleDeleteSummary s summaryId false).error
        = some "Failed to delete summary. Please try again later." := by
  refine ⟨rfl, ?_, ?_, ?_, rfl, rfl⟩
  · intro x hx
    simp [handleDeleteSummary, deleteIssue, deleteComplete, List.mem_filter] at hx
    exact hx.2
  · intro x
    simp [handleDeleteSummary, deleteIssue, deleteComplete, List.mem_filter]
  · simp only [handleDeleteSummary, deleteIssue, deleteComplete, if_pos]
    exact List.filter_sublist s.summaries

/-- Claim C3, witness at a concrete two-element list. -/
theorem confirmDelete_invariant_witness :
    (handleDeleteSummary
        { initialListState with summaries := [⟨1, "A", "code", ""⟩, ⟨2, "B", "research", ""⟩] }
        1 true).summaries.Sublist
      [⟨1, "A", "code", ""⟩, ⟨2, "B", "research", ""⟩] :=
  (confirmDelete_invariant
      { initialListState with summaries := [⟨1, "A", "code", ""⟩, ⟨2, "B", "research", ""⟩] }
      1 (by decide)).2.2.2.1

/-- Claim C4, counterexample: with a token whose decoded expiry equals
the current instant (`exp * 1000 = now`), the code's strict comparison
`exp * 1000 < Date.now()` does not fire, so `verifyToken` authenticates
and keeps the persisted token — the claim's "at or before the current
time" failure condition is false at this boundary. -/
theorem verifyToken_boundary :
    (1 : Nat) * 1000 ≤ 1000
    ∧ (verifyToken boundarySession 1000 none).isAuthenticated = true
    ∧ (verifyToken boundarySession 1000 none).storedToken ≠ none := by decide

/-- Claim C4, amended: `verifyToken` fails (leaves `isAuthenticated`
false) exactly when no token or no cached profile is stored, the token
does not decode, or the decoded expiry is STRICTLY before the current
time; and whenever it fails, both persisted fields and the in-memory
profile are cleared. -/
theorem verifyToken_characterization (s : SessionState) (now : Nat)
    (resp : Option FetchResponse) :
    ((verifyToken s now resp).isAuthenticated = false ↔ verifyFailCond s now)
    ∧ (verifyFailCond s now →
        (verifyToken s now resp).storedToken = none
        ∧ (verifyToken s now resp).storedUser = none
        ∧ (verifyToken s now resp).userData = none) := by
  unfold verifyToken verifyFailCond logout applyPrefetch
  rcases s with ⟨tok, user, auth, ud, sums, ld, err⟩
  cases tok with
  | none => simp
  | some t =>
      obtain ⟨te⟩ := t
      cases user with
      | none => simp
      | some u =>
          cases te with
          | none => simp
          | some exp =>
              by_cases hlt : exp * 1000 < now
              · simp [hlt]
              · cases resp with
                | none => simp [hlt]
                | some r => by_cases hok : r.status = "OK" <;> simp [hlt, hok]

/-- Claim C4, witness: an expired token (expiry strictly in the past)
ends with the persisted token cleared. -/
theorem verifyToken_characterization_witness :
    (verifyToken expiredSession 2001 none).storedToken = none :=
  ((verifyToken_characterization expiredSession 2001 none).2
    (by simp [verifyFailCond, expiredSession])).1

/-- Claim C5, counterexample: a 401 and a 404 axios error with the same
response body throw the very same value (the status is discarded, so
`Unauthorized` is not distinguishable), and `fetchSummaries` maps the
401 to its generic list error without touching the logout state — the
claim that Unauthorized always triggers logout is false. -/
theorem fetch_unauthorized_swallowed :
    thrownOfFetchError "Error fetching summaries" ⟨some 401, some "Could not validate credentials"⟩
      = thrownOfFetchError "Error fetching summaries" ⟨some 404, some "Could not validate credentials"⟩
    ∧ (fetchOwnedComplete initialListState
        (.netErr ⟨some 401, some "Could not validate credentials"⟩)).loggedOut = false
    ∧ (fetchOwnedComplete initialListState
        (.netErr ⟨some 401, some "Could not validate credentials"⟩)).error
        = some "Failed to load summaries. Please try again later." := by decide

/-- Claim C5, amended: the gateway throws only the response body (two
errors with equal bodies are indistinguishable whatever their HTTP
statuses), and `fetchSummaries` handles every thrown error — auth
failures included — by setting the generic list error, leaving
`summaries` and the logout state untouched. -/
theorem fetch_error_generic (s : ListState) (e : AxiosError) :
    (fetchOwnedComplete s (.netErr e)).loggedOut = s.loggedOut
    ∧ (fetchOwnedComplete s (.netErr e)).error
        = some "Failed to load summaries. Please try again later."
    ∧ (fetchOwnedComplete s (.netErr e)).summaries = s.summaries
    ∧ ∀ e' : AxiosError, e.data = e'.data →
        thrownOfFetchError "Error fetching summaries" e
          = thrownOfFetchError "Error fetching summaries" e' := by
  refine ⟨rfl, rfl, rfl, ?_⟩
  intro e' h
  unfold thrownOfFetchError
  rw [h]

/-- Claim C5, witness for the amended theorem at concrete errors. -/
theorem fetch_error_generic_witness :
    thrownOfFetchError "Error fetching summaries" ⟨some 401, some "x"⟩
      = thrownOfFetchError "Error fetching summaries" ⟨some 500, some "x"⟩ :=
  (fetch_error_generic initialListState ⟨some 401, some "x"⟩).2.2.2 ⟨some 500, some "x"⟩ rfl

/-- Claim C6: with an empty recipient `handleSendShare` never reaches
the gateway and alerts the validation message, leaving the dialog
state alone; with a non-empty recipient, a gateway success clears
`sharingSummary` and the recipient field, while a gateway failure
keeps `sharingSummary` (the dialog stays open) and surfaces the
server-provided `detail` text. -/
theorem confirmShare_spec (s : ListState) (o : ShareOutcome) :
    (s.recipient = "" →
        (handleSendShare s o).2 = false
        ∧ (handleSendShare s o).1.alerts
            = s.alerts ++ ["Please enter a recipient email or username."]
        ∧ (handleSendShare s o).1.sharingSummary = s.sharingSummary
        ∧ (handleSendShare s o).1.recipient = s.recipient)
    ∧ (s.recipient ≠ "" →
        ((handleSendShare s .ok).2 = true
        ∧ (handleSendShare s .ok).1.sharingSummary = none
        ∧ (handleSendShare s .ok).1.recipient = "")
        ∧ ∀ d : Option String,
            (handleSendShare s (.err d)).2 = true
            ∧ (handleSendShare s (.err d)).1.sharingSummary = s.sharingSummary
            ∧ (handleSendShare s (.err d)).1.errorMessage = d) := by
  constructor
  · intro h
    simp [handleSendShare, h]
  · intro h
    refine ⟨by simp [handleSendShare, h], fun d => by simp [handleSendShare, h]⟩

/-- Claim C6, witness: sharing summary id 5 to a non-empty recipient
with a gateway success clears `sharingSummary`. -/
theorem confirmShare_spec_witness :
    (handleSendShare
        (handleShareSummary { initialListState with recipient := "bob@example.com" }
          ⟨5, "T", "code", ""⟩) .ok).1.sharingSummary = none :=
  ((confirmShare_spec
      (handleShareSummary { initialListState with recipient := "bob@example.com" }
        ⟨5, "T", "code", ""⟩) .ok).2 (by decide)).1.2.1

/-- Claim C7: on a malformed list response (status flag not `OK`, or a
non-array `result`) both fetchers set their error text and leave their
list exactly as it was; on a well-formed success response the list is
fully replaced by the payload. -/
theorem loadActiveList_malformed (s : ListState) (r : FetchResponse) :
    ((r.status ≠ "OK" ∨ r.result = none) →
        (fetchOwnedComplete s (.ok r)).summaries = s.summaries
        ∧ (fetchOwnedComplete s (.ok r)).error
            = some "Failed to load summaries. Please try again later."
        ∧ (fetchSharedComplete s (.ok r)).sharedSummaries = s.sharedSummaries
        ∧ (fetchSharedComplete s (.ok r)).error
            = some "Failed to load shared summaries. Please try again later.")
    ∧ (∀ data, r.status = "OK" → r.result = some data →
        (fetchOwnedComplete s (.ok r)).summaries = data
        ∧ (fetchSharedComplete s (.ok r)).sharedSummaries = data) := by
  constructor
  · intro h
    have hp : (FetchOutcome.ok r).payload = none := by
      rcases h with h | h <;> simp [FetchOutcome.payload, h]
    simp [fetchOwnedComplete, fetchSharedComplete, hp]
  · intro data h1 h2
    have hp : (FetchOutcome.ok r).payload = some data := by
      simp [FetchOutcome.payload, h1, h2]
    simp [fetchOwnedComplete, fetchSharedComplete, hp]

/-- Claim C7, witness: a response with a failing status flag leaves
`summaries` at its previous value. -/
theorem loadActiveList_malformed_witness :
    (fetchOwnedComplete initialListState (.ok ⟨"ERROR", some []⟩)).summaries
      = initialListState.summaries :=
  ((loadActiveList_malformed initialListState ⟨"ERROR", some []⟩).1
    (Or.inl (by decide))).1

/-- Claim C8: the visible-list computation is idempotent — filtering
the filtered list with the same `(category, query)` pair returns it
unchanged. -/
theorem filteredSummaries_idempotent (activeTab searchQuery : String)
    (items : List Summary) :
    filteredSummaries activeTab searchQuery (filteredSummaries activeTab searchQuery items) =
      filteredSummaries activeTab searchQuery items := by
  unfold filteredSummaries
  rw [List.filter_filter]
  exact List.filter_congr fun a _ => by rw [Bool.and_self]

/-- Claim C9, counterexample: an item missing both `type` and
`outputData` is processed without error under category `all` and the
empty query (neither field is ever read), and is kept — the claim that
a missing field always makes the computation fail is false. -/
theorem filteredRaw_partial_fields_ok :
    filteredRaw "all" "" [⟨some "A", none, none⟩] = some [⟨some "A", none, none⟩]
    ∧ (⟨some "A", none, none⟩ : RawSummary).type = none
    ∧ (⟨some "A", none, none⟩ : RawSummary).outputData = none := by decide

/-- Claim C9, amended: every list whose items all carry string-valued
`title`, `type` and `outputData` is filtered without hitting an error
branch (the precondition is sufficient); it is not necessary — `type`
is only read when the category is not `all` and `outputData` only when
the query misses the title — but an item with no `title` whose category
check passes always makes the computation fail. -/
theorem filteredRaw_total :
    (∀ (activeTab searchQuery : String) (items : List RawSummary),
        (∀ s ∈ items, s.title.isSome ∧ s.type.isSome ∧ s.outputData.isSome) →
        (filteredRaw activeTab searchQuery items).isSome)
    ∧ (∀ (activeTab searchQuery : String) (s : RawSummary) (rest : List RawSummary),
        (activeTab = "all" ∨ s.type.isSome) → s.title = none →
        filteredRaw activeTab searchQuery (s :: rest) = none) := by
  constructor
  · intro activeTab searchQuery items h
    induction items with
    | nil => simp [filteredRaw]
    | cons a l ih =>
        obtain ⟨ha, hl⟩ := List.forall_mem_cons.mp h
        obtain ⟨b, hb⟩ := Option.isSome_iff_exists.mp
          (rawMatches_total activeTab searchQuery a ha.1 ha.2.1 ha.2.2)
        obtain ⟨tl, htl⟩ := Option.isSome_iff_exists.mp (ih hl)
        simp [filteredRaw, hb, htl]
  · intro activeTab searchQuery s rest h ht
    have hm : rawMatches activeTab searchQuery s = none := by
      rcases h with h | h
      · simp [rawMatches, h, ht]
      · obtain ⟨ty, hty⟩ := Option.isSome_iff_exists.mp h
        simp [rawMatches, hty, ht]
    simp [filteredRaw, hm]

/-- Claim C9, witness: a fully-populated item is filtered without
error; an item with no `title` under category `all` fails. -/
theorem filteredRaw_total_witness :
    (filteredRaw "code" "q" [⟨some "A", some "code", some "B"⟩]).isSome
    ∧ filteredRaw "all" "q" [(⟨none, some "code", some "B"⟩ : RawSummary)] = none :=
  ⟨filteredRaw_total.1 "code" "q" [⟨some "A", some "code", some "B"⟩] (by decide),
   filteredRaw_total.2 "all" "q" ⟨none, some "code", some "B"⟩ [] (Or.inl rfl) rfl⟩

/-- Claim C10: `handleDeleteSummary` is frame-preserving — whether the
gateway delete succeeds or fails, and already during the in-flight
window, `sharedSummaries`, `searchQuery`, `activeTab`, `currentView`
and the selected summary keep their starting values. -/
theorem delete_frame (s : ListState) (summaryId : Nat) (ok : Bool) :
    ((handleDeleteSummary s summaryId ok).sharedSummaries = s.sharedSummaries)
    ∧ ((handleDeleteSummary s summaryId ok).searchQuery = s.searchQuery)
    ∧ ((handleDeleteSummary s summaryId ok).activeTab = s.activeTab)
    ∧ ((handleDeleteSummary s summaryId ok).currentView = s.currentView)
    ∧ ((handleDeleteSummary s summaryId ok).selectedSummary = s.selectedSummary)
    ∧ ((deleteIssue s).sharedSummaries = s.sharedSummaries)
    ∧ ((deleteIssue s).searchQuery = s.searchQuery)
    ∧ ((deleteIssue s).activeTab = s.activeTab)
    ∧ ((deleteIssue s).currentView = s.currentView)
    ∧ ((deleteIssue s).selectedSummary = s.selectedSummary) := by
  cases ok <;> simp [handleDeleteSummary, deleteIssue, deleteComplete]

end Briefly
